import Mathlib

/-
Shallow embedding of agent/src/ebpf/kernel/go_http2_bpf.c: the eBPF
instrumentation core that reconstructs HTTP/2 header events from a running Go
binary.  Pointers and machine words are modelled as Nat; target-process memory
and kernel structures are modelled as explicit read functions; the bounded
per-CPU scratch stack and the eBPF maps are threaded as explicit state.
Machine-integer wraparound is made explicit with mod where it matters
(32-bit stream-id subtraction, 64-bit id counter).
-/

namespace GoHttp2

/-- Word-granular memory of the traced process: the pointer-sized value stored
at an address, backing a bpf_probe_read of one machine word. -/
def Mem : Type := Nat → Nat

/-- Go runtime string header, mirroring struct go_string of the source. -/
structure go_string where
  ptr : Nat
  len : Nat
deriving DecidableEq, Repr

/-- Go runtime slice header, mirroring struct go_slice of the source. -/
structure go_slice where
  ptr : Nat
  len : Nat
  cap : Nat
deriving DecidableEq, Repr

/-- Go runtime interface value, a pair of type identity and data pointer,
mirroring struct go_interface of the source. -/
structure go_interface where
  type' : Nat
  ptr : Nat
deriving DecidableEq, Repr

/-- One HTTP/2 header field as laid out by the Go runtime, mirroring struct
go_http2_header_field at lines 112 to 116 of the source. -/
structure go_http2_header_field where
  name : go_string
  value : go_string
  sensitive : Bool
deriving DecidableEq, Repr

/-- Interface-granular memory: the go_interface stored at an address, backing
a bpf_probe_read of sizeof(struct go_interface) bytes. -/
def IfaceMem : Type := Nat → go_interface

/-- The registers captured at the instrumented call, mirroring the fields of
struct pt_regs that the source reads. -/
structure pt_regs where
  rax : Nat
  rbx : Nat
  rcx : Nat
  rdx : Nat
  rdi : Nat
  rsi : Nat
  rsp : Nat
  r8 : Nat
deriving DecidableEq, Repr

/-- Semantic field identifiers indexing the per-process byte-offset table.
The enumerators are declared outside src; only their distinctness matters for
this file, so they are modelled as an enumeration. -/
inductive OffsetIdx where
  | OFFSET_IDX_CONN_HTTP2_SERVER_CONN
  | OFFSET_IDX_TCONN_HTTP2_CLIENT_CONN
  | OFFSET_IDX_CONN_GRPC_HTTP2_CLIENT
  | OFFSET_IDX_CONN_GRPC_HTTP2_SERVER
  | OFFSET_IDX_SIDE_GRPC_TRANSPORT_LOOPY_WRITER
  | OFFSET_IDX_FRAMER_GRPC_TRANSPORT_LOOPY_WRITER
  | OFFSET_IDX_WRITER_GRPC_TRANSPORT_FRAMER
  | OFFSET_IDX_CONN_GRPC_TRANSPORT_BUFWRITER
  | OFFSET_IDX_CC_HTTP2_CLIENT_CONN_READ_LOOP
  | OFFSET_IDX_STREAM_ID_HTTP2_FRAME_HEADER
  | OFFSET_IDX_FIELDS_HTTP2_META_HEADERS_FRAME
  | OFFSET_IDX_STREAM_HTTP2_CLIENT_CONN
deriving DecidableEq, Repr

/-- Per-traced-process record: detected compiler version, byte-offset table
and the captured type identity of the gRPC credentials syscallConn wrapper,
mirroring the fields of struct ebpf_proc_info that the source reads. -/
structure ebpf_proc_info where
  version : Nat
  offsets : OffsetIdx → Nat
  credentials_syscallConn_itab : Nat

/-- Modelled from the spec: the GO_VERSION encoding macro is declared outside
src.  The spec only requires an order with the convention-change boundary at
Go 1.17.0; the standard packed encoding is used. -/
def GO_VERSION (a b c : Nat) : Nat := (a <<< 16) + (b <<< 8) + c

/-- ABI resolver, mirroring get_the_first_parameter at lines 1 to 11 of the
source: at or above the Go 1.17.0 boundary the first argument is the rax
register captured at entry, below it the machine word one word past the
call's stack pointer. -/
def get_the_first_parameter (ctx : pt_regs) (mem : Mem)
    (info : ebpf_proc_info) : Nat :=
  if GO_VERSION 1 17 0 ≤ info.version then ctx.rax
  else mem (ctx.rsp + 8)

/-- Spec-side model of section 4.1: first_argument(call_context, proc_info).
At or above the convention-change boundary the argument lives in the
designated register; otherwise it lives at a fixed offset relative to the
call's stack pointer, one machine word deeper due to the return address. -/
def first_argument (ctx : pt_regs) (mem : Mem) (info : ebpf_proc_info) : Nat :=
  if GO_VERSION 1 17 0 ≤ info.version then ctx.rax
  else mem (ctx.rsp + 1 * 8)

/-- A generic single-key eBPF map: per-key optional value. -/
def BpfMap (K V : Type) : Type := K → Option V

/-- Modelled from the spec: bpf_map_update_elem, the single-key map insertion
primitive, is declared outside src. -/
def bpf_map_update_elem {K V : Type} [DecidableEq K] (m : BpfMap K V)
    (k : K) (v : V) : BpfMap K V :=
  fun k' => if k' = k then some v else m k'

/-- Key of the TCP sequence dedup map, mirroring struct http2_tcp_seq_key as
built at lines 138 to 142 of the source. -/
structure http2_tcp_seq_key where
  tgid : Nat
  fd : Nat
  tcp_seq_end : Nat
deriving DecidableEq, Repr

/-- Traffic direction tag written into the event. -/
inductive traffic_direction where
  | T_INGRESS
  | T_EGRESS
deriving DecidableEq, Repr

/-- Protocol tag written into the event: plain HTTP/2 or TLS-carried. -/
inductive traffic_protocol where
  | PROTO_HTTP2
  | PROTO_TLS_HTTP2
deriving DecidableEq, Repr

/-- Modelled from the spec: the address-family constants come from the Linux
ABI headers outside src. -/
def PF_INET : Nat := 2

/-- Modelled from the spec: the IPv6 address-family constant from the Linux
ABI headers outside src. -/
def PF_INET6 : Nat := 10

/-- Modelled from the spec: the TCP protocol number from the Linux ABI
headers outside src. -/
def IPPROTO_TCP : Nat := 6

/-- Modelled from the spec: the source tag of events emitted by this
instrumentation; its numeric value is declared outside src and is immaterial
to the claims. -/
def DATA_SOURCE_GO_HTTP2_UPROBE : Nat := 4

/-- Modelled from the spec: the message-kind enumeration is declared outside
src.  The source comments at lines 405 to 406 fix the END variants as the
base kind plus 2. -/
def MSG_REQUEST : Nat := 1

/-- Modelled from the spec: the response message kind. -/
def MSG_RESPONSE : Nat := 2

/-- Modelled from the spec: the request-end terminal kind, MSG_REQUEST + 2. -/
def MSG_REQUEST_END : Nat := 3

/-- Modelled from the spec: the response-end terminal kind,
MSG_RESPONSE + 2. -/
def MSG_RESPONSE_END : Nat := 4

/-- The five-tuple block of the emitted record, mirroring the tuple fields
of struct __socket_data that the source writes.  The address fields hold the
value returned by the corresponding bounded socket-structure read. -/
structure tuple_t where
  l4_protocol : Nat
  dport : Nat
  num : Nat
  rcv_saddr : Nat
  daddr : Nat
  addr_len : Nat
deriving DecidableEq, Repr

/-- The fixed header of the emitted record, mirroring the fields of struct
__socket_data that the source writes.  The comm byte array is modelled as one
opaque value. -/
structure __socket_data where
  source : Nat
  coroutine_id : Nat
  timestamp : Nat
  comm : Nat
  tcp_seq : Nat
  direction : traffic_direction
  data_type : traffic_protocol
  tuple : tuple_t
  socket_id : Nat
  tgid : Nat
  pid : Nat
  msg_type : Nat
  syscall_len : Nat
  data_len : Nat
deriving DecidableEq, Repr

/-- The bounded name-and-value buffer of the scratch stack, mirroring struct
__http2_buffer of the source with the info byte array as a list. -/
structure __http2_buffer where
  fd : Nat
  stream_id : Nat
  header_len : Nat
  value_len : Nat
  info : List Nat
deriving DecidableEq, Repr

/-- The reusable per-invocation scratch stack, mirroring struct __http2_stack
of the source: the event count, the raw length and the two buffers. -/
structure __http2_stack where
  events_num : Nat
  len : Nat
  http2_buffer : __http2_buffer
  send_buffer : __socket_data
deriving DecidableEq, Repr

/-- Modelled from the spec: compile-time sizes declared outside src.
HTTP2_BUFFER_INFO_SIZE is the capacity of the bounded name-and-value buffer;
SOCKET_DATA_OFFSET is offsetof(struct __socket_data, data), the size of the
fixed record header preceding the payload. -/
structure ModelParams where
  HTTP2_BUFFER_INFO_SIZE : Nat
  SOCKET_DATA_OFFSET : Nat
deriving DecidableEq, Repr

/-- Byte-granular memory of the traced process: the n bytes stored at an
address, backing the bounded bulk reads of header names and values. -/
def ByteMem : Type := Nat → Nat → List Nat

/-- Field-granular memory of the traced process: the go_http2_header_field
stored at index idx of the array at a base address, backing the
bpf_probe_read of one field struct in the submit loop. -/
def FieldMem : Type := Nat → Nat → go_http2_header_field

/-- One per-connection socket-info entry, mirroring the uid field of struct
socket_info_t that the source reads and writes. -/
structure socket_info_t where
  uid : Nat
deriving DecidableEq, Repr

/-- The per-agent id generator, mirroring the socket_id field of struct
trace_uid_t that the source reads and writes. -/
structure trace_uid_t where
  socket_id : Nat
deriving DecidableEq, Repr

/-- Agent statistics, mirroring the socket_map_count field of struct
trace_stats that the source increments. -/
structure trace_stats where
  socket_map_count : Nat
deriving DecidableEq, Repr

/-- The externally prepared kernel-structure offset table; the source only
consults its readiness flag. -/
structure member_fields_offset where
  ready : Nat
deriving DecidableEq, Repr

/-- Modelled from the spec: byte offsets into the kernel socket structure,
version-specific to the host kernel and supplied externally (section 6 of the
spec); the macros STRUCT_SOCK_..._OFFSET are declared outside src. -/
structure sock_offsets where
  STRUCT_SOCK_COMMON_IPV6ONLY_OFFSET : Nat
  STRUCT_SOCK_FAMILY_OFFSET : Nat
  STRUCT_SOCK_DPORT_OFFSET : Nat
  STRUCT_SOCK_SPORT_OFFSET : Nat
  STRUCT_SOCK_SADDR_OFFSET : Nat
  STRUCT_SOCK_DADDR_OFFSET : Nat
  STRUCT_SOCK_IP6SADDR_OFFSET : Nat
  STRUCT_SOCK_IP6DADDR_OFFSET : Nat
deriving DecidableEq, Repr

/-- The ambient kernel environment of one invocation: the external primitives
the source calls, modelled as pure read functions.  sock_read sk off n is the
value of the n-byte bounded read at offset off of the kernel socket structure
sk; sock_of_fd is the external descriptor-to-socket primitive. -/
structure KernelEnv where
  pid_tgid : Nat
  goroutine : Nat
  ktime : Nat
  comm : Nat
  tcp_read_seq : Nat → Nat
  tcp_write_seq : Nat → Nat
  sock_of_fd : Nat → Nat
  sock_read : Nat → Nat → Nat → Nat
  offs : sock_offsets

/-- The shared eBPF map state touched by the enricher. -/
structure MapState where
  http2_tcp_seq_map : BpfMap http2_tcp_seq_key Nat
  members_offset : Option member_fields_offset
  trace_uid : Option trace_uid_t
  socket_info_map : BpfMap Nat socket_info_t
  trace_stats_map : Option trace_stats

/-- TCP sequence dedup lookup, mirroring get_previous_read_tcp_seq at lines
136 to 148 of the source: the key is the current tgid, the descriptor and the
post-read end sequence; a hit returns the stored begin sequence, a miss
returns 0. -/
def get_previous_read_tcp_seq (env : KernelEnv) (st : MapState)
    (fd : Nat) (seq_end : Nat) : Nat :=
  let key : http2_tcp_seq_key :=
    { tgid := env.pid_tgid >>> 32, fd := fd, tcp_seq_end := seq_end }
  match st.http2_tcp_seq_map key with
  | some seq_begin => seq_begin
  | none => 0

/-- Modelled from the spec: gen_conn_key_id, the macro packing a (tgid, fd)
pair into one 64-bit map key, is declared outside src. -/
def gen_conn_key_id (tgid fd : Nat) : Nat := (tgid <<< 32) ||| fd

/-- Modelled from the spec: is_socket_info_valid is declared outside src; the
spec says a stored entry is returned as-is on every later lookup, so validity
is modelled as presence of the map entry. -/
def is_socket_info_valid (p : Option socket_info_t) : Bool := p.isSome

/-- Byte swap of a 16-bit big-endian port value, mirroring __bpf_ntohs. -/
def __bpf_ntohs (x : Nat) : Nat := (x % 256) * 256 + (x / 256) % 256

/-- The in-flight event data of one header, mirroring struct
http2_header_data at lines 150 to 164 of the source.  The ctx pointer is
modelled by whether it is non-null. -/
structure http2_header_data where
  read : Bool
  message_type : Nat
  fd : Nat
  name : go_string
  value : go_string
  stream : Nat
  has_ctx : Bool
deriving DecidableEq, Repr

/-- The sequence number the enricher resolves for an event, mirroring lines
198 to 207 of the source: read events recover the begin sequence recorded for
the post-read cursor through the dedup map, write events use the raw current
write sequence. -/
def resolved_tcp_seq (env : KernelEnv) (st : MapState)
    (data : http2_header_data) : Nat :=
  if data.read then
    get_previous_read_tcp_seq env st data.fd (env.tcp_read_seq data.fd)
  else
    env.tcp_write_seq data.fd

/-- The closing assignments of http2_fill_common_socket at lines 307 to 308
of the source: the tgid and the low 32 bits of the pid-tgid pair. -/
def fill_tgid_pid (env : KernelEnv) (sb : __socket_data) : __socket_data :=
  { sb with tgid := env.pid_tgid >>> 32, pid := env.pid_tgid % 2 ^ 32 }

/-- The five-tuple extraction of http2_fill_common_socket at lines 238 to
278 of the source: protocol, ports and family-dependent addresses read from
the kernel socket structure at the externally supplied offsets. -/
def tuple_stage (env : KernelEnv) (fd : Nat)
    (send_buffer : __socket_data) : __socket_data :=
  let send_buffer := { send_buffer with
    tuple := { send_buffer.tuple with l4_protocol := IPPROTO_TCP } }
  let sk := env.sock_of_fd fd
  -- the source also reads the skc_flags bitfield into a local that is never
  -- used afterwards; the read has no observable effect here
  let skc_family := env.sock_read sk env.offs.STRUCT_SOCK_FAMILY_OFFSET 2
  let inet_dport := env.sock_read sk env.offs.STRUCT_SOCK_DPORT_OFFSET 2
  let inet_sport := env.sock_read sk env.offs.STRUCT_SOCK_SPORT_OFFSET 2
  let send_buffer := { send_buffer with
    tuple := { send_buffer.tuple with
      dport := __bpf_ntohs inet_dport, num := inet_sport } }
  if skc_family = PF_INET then
    { send_buffer with tuple := { send_buffer.tuple with
        rcv_saddr := env.sock_read sk env.offs.STRUCT_SOCK_SADDR_OFFSET 4,
        daddr := env.sock_read sk env.offs.STRUCT_SOCK_DADDR_OFFSET 4,
        addr_len := 4 } }
  else if skc_family = PF_INET6 then
    -- both address reads use STRUCT_SOCK_IP6SADDR_OFFSET, as at lines 271
    -- to 277 of the source
    { send_buffer with tuple := { send_buffer.tuple with
        rcv_saddr :=
          env.sock_read sk env.offs.STRUCT_SOCK_IP6SADDR_OFFSET 16,
        daddr :=
          env.sock_read sk env.offs.STRUCT_SOCK_IP6SADDR_OFFSET 16,
        addr_len := 16 } }
  else send_buffer

/-- The socket-identity step of http2_fill_common_socket at lines 281 to 308
of the source: a missing id generator abandons the event; a valid stored
entry is returned as the socket id; otherwise the counter plus 1 (as a
64-bit value) is assigned, stored and counted, and a missing statistics
entry abandons the event after the store. -/
def socket_id_stage (env : KernelEnv) (st : MapState) (fd : Nat)
    (send_buffer : __socket_data) : __socket_data × MapState :=
  match st.trace_uid with
  | none => (send_buffer, st)
  | some trace_uid =>
    let conn_key := gen_conn_key_id (env.pid_tgid >>> 32) fd
    let socket_info_ptr := st.socket_info_map conn_key
    if is_socket_info_valid socket_info_ptr then
      let send_buffer := { send_buffer with
        socket_id := (socket_info_ptr.getD { uid := 0 }).uid }
      (fill_tgid_pid env send_buffer, st)
    else
      let sid := (trace_uid.socket_id + 1) % 2 ^ 64
      let send_buffer := { send_buffer with socket_id := sid }
      let st := { st with
        trace_uid := some { socket_id := sid },
        socket_info_map := bpf_map_update_elem st.socket_info_map
          conn_key { uid := sid } }
      match st.trace_stats_map with
      | none => (send_buffer, st)
      | some ts =>
        let st :=
          { st with trace_stats_map := some ⟨ts.socket_map_count + 1⟩ }
        (fill_tgid_pid env send_buffer, st)

/-- Enrichment of the fixed record header, mirroring http2_fill_common_socket
at lines 188 to 309 of the source.  http2_tls is the invocation-scoped TLS
flag consulted through is_http2_tls; the scratch send buffer is threaded
explicitly, every early return of the source returns the buffer and map
state as updated so far, and the tuple and socket-id steps are split into
the stage functions above. -/
def http2_fill_common_socket (env : KernelEnv) (st : MapState)
    (http2_tls : Bool) (data : http2_header_data)
    (send_buffer : __socket_data) : __socket_data × MapState :=
  let send_buffer := { send_buffer with
    source := DATA_SOURCE_GO_HTTP2_UPROBE,
    coroutine_id := env.goroutine,
    timestamp := env.ktime,
    comm := env.comm }
  let tcp_seq := resolved_tcp_seq env st data
  if tcp_seq = 0 then (send_buffer, st)
  else
    let send_buffer := { send_buffer with
      tcp_seq := tcp_seq,
      direction := if data.read then traffic_direction.T_INGRESS
        else traffic_direction.T_EGRESS,
      data_type := if http2_tls then traffic_protocol.PROTO_TLS_HTTP2
        else traffic_protocol.PROTO_HTTP2 }
    match st.members_offset with
    | none => (send_buffer, st)
    | some offset =>
      if offset.ready = 0 then (send_buffer, st)
      else socket_id_stage env st data.fd (tuple_stage env data.fd
        send_buffer)

/-- One record handed to the asynchronous event channel: a snapshot of the
scratch stack at emission time plus the byte size passed to the perf
output. -/
structure EmittedRecord where
  stack : __http2_stack
  size : Nat
deriving DecidableEq, Repr

/-- The size computation of the emitted record, extracted verbatim from line
182 of the source: add 8 to the raw length, then bitwise-AND with 1023. -/
def http2_send_size (len : Nat) : Nat := (len + 8) &&& 1023

/-- Emission, mirroring report_http2_header at lines 167 to 185 of the
source: a null ctx emits nothing; otherwise the event count is set to one,
the raw length is the fixed header size plus the payload length, and one
record of size 1 + http2_send_size len is handed to the channel.  The scratch
stack is threaded explicitly, so the null-stack early return of the source
cannot occur in the model. -/
def report_http2_header (P : ModelParams) (has_ctx : Bool)
    (stack : __http2_stack) : __http2_stack × List EmittedRecord :=
  if !has_ctx then (stack, [])
  else
    let stack := { stack with
      events_num := 1,
      len := P.SOCKET_DATA_OFFSET + stack.send_buffer.syscall_len }
    (stack, [{ stack := stack, size := 1 + http2_send_size stack.len }])

/-- Splice of a bounded byte copy into the info buffer at an offset. -/
def writeBytes (info : List Nat) (off : Nat) (bytes : List Nat) : List Nat :=
  info.take off ++ bytes ++ info.drop (off + bytes.length)

/-- Payload assembly and send, mirroring http2_fill_buffer_and_send at lines
312 to 355 of the source: suppressed entirely when the enriched sequence
number is zero; name and value lengths are stored masked with 0x03FF; the
record is dropped when 16 plus the masked lengths exceeds the buffer
capacity; then name bytes, value bytes and a zero terminator are spliced in
under the same range checks as the source, and the record is emitted.  The
null-pointer checks on data, buffer and send_buffer cannot fail in the model
because all three are threaded explicitly. -/
def http2_fill_buffer_and_send (P : ModelParams) (tmem : ByteMem)
    (data : http2_header_data) (stack : __http2_stack) :
    __http2_stack × List EmittedRecord :=
  if stack.send_buffer.tcp_seq = 0 then (stack, [])
  else
    let stack := { stack with send_buffer :=
      { stack.send_buffer with msg_type := data.message_type } }
    let stack := { stack with http2_buffer :=
      { stack.http2_buffer with
        fd := data.fd,
        stream_id := data.stream,
        header_len := data.name.len &&& 0x03FF,
        value_len := data.value.len &&& 0x03FF } }
    let count :=
      16 + stack.http2_buffer.header_len + stack.http2_buffer.value_len
    if P.HTTP2_BUFFER_INFO_SIZE < count then (stack, [])
    else
      let stack := { stack with send_buffer :=
        { stack.send_buffer with syscall_len := count, data_len := count } }
      let stack :=
        if stack.http2_buffer.header_len < P.HTTP2_BUFFER_INFO_SIZE then
          { stack with http2_buffer := { stack.http2_buffer with
              info := writeBytes stack.http2_buffer.info 0
                (tmem data.name.ptr (1 + stack.http2_buffer.header_len)) } }
        else stack
      let stack :=
        if stack.http2_buffer.header_len < P.HTTP2_BUFFER_INFO_SIZE ∧
            stack.http2_buffer.value_len < P.HTTP2_BUFFER_INFO_SIZE then
          { stack with http2_buffer := { stack.http2_buffer with
              info := writeBytes stack.http2_buffer.info
                stack.http2_buffer.header_len
                (tmem data.value.ptr (1 + stack.http2_buffer.value_len)) } }
        else stack
      let stack :=
        if stack.http2_buffer.header_len + stack.http2_buffer.value_len <
            P.HTTP2_BUFFER_INFO_SIZE then
          { stack with http2_buffer := { stack.http2_buffer with
              info := writeBytes stack.http2_buffer.info
                (stack.http2_buffer.header_len +
                  stack.http2_buffer.value_len) [0] } }
        else stack
      report_http2_header P data.has_ctx stack

/-- The argument block of a multi-field call, mirroring struct
http2_headers_data at lines 357 to 364 of the source. -/
structure http2_headers_data where
  read : Bool
  fd : Nat
  fields : go_slice
  stream : Nat
  message_type : Nat
  has_ctx : Bool
deriving DecidableEq, Repr

/-- The per-field event data built by submit_http2_headers at lines 369 to
375 of the source; the name and value start zeroed. -/
def headers_to_data (headers : http2_headers_data) : http2_header_data :=
  { read := headers.read, message_type := headers.message_type,
    fd := headers.fd, name := { ptr := 0, len := 0 },
    value := { ptr := 0, len := 0 }, stream := headers.stream,
    has_ctx := headers.has_ctx }

/-- The unrolled field loop of submit_http2_headers at lines 390 to 400 of
the source, as structural recursion on the remaining iteration budget: stop
when the budget is exhausted or the index reaches the true field count,
otherwise read the field at the current index, fill and send it, and
continue. -/
def submit_loop (P : ModelParams) (tmem : ByteMem) (fieldMem : FieldMem)
    (fields : go_slice) (data : http2_header_data) :
    Nat → Nat → __http2_stack → __http2_stack × List EmittedRecord
  | _, 0, stack => (stack, [])
  | idx, fuel + 1, stack =>
    if fields.len ≤ idx then (stack, [])
    else
      let field := fieldMem fields.ptr idx
      let data' := { data with name := field.name, value := field.value }
      let res := http2_fill_buffer_and_send P tmem data' stack
      let rest := submit_loop P tmem fieldMem fields data (idx + 1) fuel res.1
      (rest.1, res.2 ++ rest.2)

/-- Multi-field submission, mirroring submit_http2_headers at lines 367 to
411 of the source: enrich the common header once, emit up to 9 real fields,
then emit a terminal record with zero name and value lengths and the message
kind raised by 2.  The null-stack early return of the source cannot occur in
the model because the scratch stack is threaded explicitly. -/
def submit_http2_headers (P : ModelParams) (tmem : ByteMem)
    (fieldMem : FieldMem) (env : KernelEnv) (st : MapState)
    (http2_tls : Bool) (headers : http2_headers_data)
    (stack : __http2_stack) : __http2_stack × MapState × List EmittedRecord :=
  let data := headers_to_data headers
  let fcs := http2_fill_common_socket env st http2_tls data stack.send_buffer
  let stack := { stack with send_buffer := fcs.1 }
  let st := fcs.2
  let lres := submit_loop P tmem fieldMem headers.fields data 0 9 stack
  let data := { data with
    name := { data.name with len := 0 },
    value := { data.value with len := 0 },
    message_type := data.message_type + 2 }
  let fres := http2_fill_buffer_and_send P tmem data lres.1
  (fres.1, st, lres.2 ++ fres.2)

/-- The external primitive get_fd_from_tcp_or_tls_conn_interface: resolving a
TCP-or-TLS connection interface to an OS descriptor is delegated outside this
file (section 4.3 of the spec). -/
def FdResolver : Type := Nat → ebpf_proc_info → Nat

/-- Wrapper-type detection, mirroring is_grpc_syscallConn_interface at lines
13 to 19 of the source: decode the interface stored at the address and
compare its type identity with the captured credentials syscallConn itab; a
null proc-info gives false. -/
def is_grpc_syscallConn_interface (im : IfaceMem) (ptr : Nat)
    (info : Option ebpf_proc_info) : Bool :=
  let i := im ptr
  match info with
  | some info => i.type' == info.credentials_syscallConn_itab
  | none => false

/-- gRPC client transport descriptor resolution, mirroring
get_fd_from_grpc_http2Client_ctx at lines 45 to 60 of the source.  The
invocation-scoped TLS flag written through update_http2_tls is returned as
the second component: reset to false on entry, set to true exactly when the
wrapper type matches, in which case the interface at the field is decoded,
the interface at its data pointer is decoded in turn, and that inner data
pointer is delegated to the resolver. -/
def get_fd_from_grpc_http2Client_ctx (resolve : FdResolver) (ctx : pt_regs)
    (mem : Mem) (im : IfaceMem) (info : ebpf_proc_info) : Nat × Bool :=
  let ptr := get_the_first_parameter ctx mem info +
    info.offsets OffsetIdx.OFFSET_IDX_CONN_GRPC_HTTP2_CLIENT
  if is_grpc_syscallConn_interface im ptr (some info) then
    let i := im ptr
    let i := im i.ptr
    let ptr := i.ptr
    (resolve ptr info, true)
  else
    (resolve ptr info, false)

/-- gRPC server transport descriptor resolution, mirroring
get_fd_from_grpc_http2Server_ctx at lines 62 to 77 of the source; identical
wrapper handling at the server connection field. -/
def get_fd_from_grpc_http2Server_ctx (resolve : FdResolver) (ctx : pt_regs)
    (mem : Mem) (im : IfaceMem) (info : ebpf_proc_info) : Nat × Bool :=
  let ptr := get_the_first_parameter ctx mem info +
    info.offsets OffsetIdx.OFFSET_IDX_CONN_GRPC_HTTP2_SERVER
  if is_grpc_syscallConn_interface im ptr (some info) then
    let i := im ptr
    let i := im i.ptr
    let ptr := i.ptr
    (resolve ptr info, true)
  else
    (resolve ptr info, false)

/-- gRPC loopy-writer descriptor resolution, mirroring
get_fd_from_grpc_loopyWriter at lines 90 to 110 of the source: chase the
framer, writer and bufwriter connection fields through the offset table, then
apply the same wrapper handling. -/
def get_fd_from_grpc_loopyWriter (resolve : FdResolver) (ctx : pt_regs)
    (mem : Mem) (im : IfaceMem) (info : ebpf_proc_info) : Nat × Bool :=
  let ptr := get_the_first_parameter ctx mem info +
    info.offsets OffsetIdx.OFFSET_IDX_FRAMER_GRPC_TRANSPORT_LOOPY_WRITER
  let ptr := mem ptr +
    info.offsets OffsetIdx.OFFSET_IDX_WRITER_GRPC_TRANSPORT_FRAMER
  let ptr := mem ptr +
    info.offsets OffsetIdx.OFFSET_IDX_CONN_GRPC_TRANSPORT_BUFWRITER
  if is_grpc_syscallConn_interface im ptr (some info) then
    let i := im ptr
    let i := im i.ptr
    let ptr := i.ptr
    (resolve ptr info, true)
  else
    (resolve ptr info, false)

/-- Four-byte-granular memory of the traced process: the 32-bit value stored
at an address, backing a bpf_probe_read of a u32 field. -/
def Mem32 : Type := Nat → Nat

/-- The stream id computed by uprobe_go_http2ClientConn_writeHeader at lines
449 to 452 of the source: the u32 at the client connection's stream-offset
field, then an unsigned 32-bit subtraction of 2, written here as addition of
2 to the power 32 minus 2 followed by reduction mod 2 to the power 32. -/
def uprobe_go_http2ClientConn_writeHeader_stream (ctx : pt_regs) (mem : Mem)
    (mem32 : Mem32) (info : ebpf_proc_info) : Nat :=
  let ptr := get_the_first_parameter ctx mem info +
    info.offsets OffsetIdx.OFFSET_IDX_STREAM_HTTP2_CLIENT_CONN
  let stream := mem32 ptr % 2 ^ 32
  (stream + (2 ^ 32 - 2)) % 2 ^ 32

/-- The stream id computed by uprobe_go_http2ClientConn_writeHeaders at lines
496 to 499 of the source; the same read and unsigned 32-bit subtraction of
2. -/
def uprobe_go_http2ClientConn_writeHeaders_stream (ctx : pt_regs) (mem : Mem)
    (mem32 : Mem32) (info : ebpf_proc_info) : Nat :=
  let ptr := get_the_first_parameter ctx mem info +
    info.offsets OffsetIdx.OFFSET_IDX_STREAM_HTTP2_CLIENT_CONN
  let stream := mem32 ptr % 2 ^ 32
  (stream + (2 ^ 32 - 2)) % 2 ^ 32

/-- A zeroed five-tuple, the pre-invocation content of the scratch buffer. -/
def zeroTuple : tuple_t :=
  { l4_protocol := 0, dport := 0, num := 0, rcv_saddr := 0, daddr := 0,
    addr_len := 0 }

/-- A zeroed record header, the pre-invocation content of the scratch
buffer. -/
def zeroSB : __socket_data :=
  { source := 0, coroutine_id := 0, timestamp := 0, comm := 0, tcp_seq := 0,
    direction := traffic_direction.T_EGRESS,
    data_type := traffic_protocol.PROTO_HTTP2, tuple := zeroTuple,
    socket_id := 0, tgid := 0, pid := 0, msg_type := 0, syscall_len := 0,
    data_len := 0 }

/-- A zeroed scratch stack. -/
def zeroStack : __http2_stack :=
  { events_num := 0, len := 0,
    http2_buffer :=
      { fd := 0, stream_id := 0, header_len := 0, value_len := 0, info := [] },
    send_buffer := zeroSB }

/-- A concrete socket-structure offset table for evaluating the model. -/
def sampleOffs : sock_offsets :=
  { STRUCT_SOCK_COMMON_IPV6ONLY_OFFSET := 0,
    STRUCT_SOCK_FAMILY_OFFSET := 8, STRUCT_SOCK_DPORT_OFFSET := 16,
    STRUCT_SOCK_SPORT_OFFSET := 24, STRUCT_SOCK_SADDR_OFFSET := 32,
    STRUCT_SOCK_DADDR_OFFSET := 40, STRUCT_SOCK_IP6SADDR_OFFSET := 48,
    STRUCT_SOCK_IP6DADDR_OFFSET := 64 }

/-- A concrete kernel environment for evaluating the model: tgid 100, a
read-side begin sequence only through the dedup map, write sequence 100. -/
def sampleEnv : KernelEnv :=
  { pid_tgid := 100 * 2 ^ 32 + 555, goroutine := 1, ktime := 2, comm := 3,
    tcp_read_seq := fun _ => 150, tcp_write_seq := fun _ => 100,
    sock_of_fd := fun fd => 1000 + fd,
    sock_read := fun sk off n => sk + off + n, offs := sampleOffs }

/-- A map state with ready offsets, counter 0 and otherwise empty maps. -/
def readyState : MapState :=
  { http2_tcp_seq_map := fun _ => none, members_offset := some { ready := 1 },
    trace_uid := some { socket_id := 0 }, socket_info_map := fun _ => none,
    trace_stats_map := some { socket_map_count := 0 } }

/-- A concrete egress single-header event on descriptor 7. -/
def sampleData : http2_header_data :=
  { read := false, message_type := MSG_REQUEST, fd := 7,
    name := { ptr := 0, len := 2000 }, value := { ptr := 0, len := 5 },
    stream := 1, has_ctx := true }

/-- Concrete model parameters for evaluation: buffer capacity 2048, fixed
record-header size 0. -/
def sampleParams : ModelParams :=
  { HTTP2_BUFFER_INFO_SIZE := 2048, SOCKET_DATA_OFFSET := 0 }

/-- A zeroed scratch stack whose record header carries a given payload
length. -/
def stackWithLen (n : Nat) : __http2_stack :=
  { zeroStack with send_buffer := { zeroSB with syscall_len := n } }

/-- A zeroed scratch stack whose record header carries a given enriched TCP
sequence number. -/
def stackWithSeq (n : Nat) : __http2_stack :=
  { zeroStack with send_buffer := { zeroSB with tcp_seq := n } }

/-- A concrete interface memory: address 10 holds an interface of type
identity 77 with data pointer 20, address 20 holds an inner interface with
data pointer 30. -/
def sampleIface : IfaceMem := fun a =>
  if a = 10 then { type' := 77, ptr := 20 }
  else if a = 20 then { type' := 5, ptr := 30 }
  else { type' := 0, ptr := 0 }

/-- A concrete call context whose first argument register holds 10. -/
def sampleCtx : pt_regs :=
  { rax := 10, rbx := 0, rcx := 0, rdx := 0, rdi := 0, rsi := 0, rsp := 0,
    r8 := 0 }

/-- A Go 1.17.0 process whose captured wrapper type identity is 77 and whose
offset table is all zero. -/
def sampleInfoT : ebpf_proc_info :=
  { version := GO_VERSION 1 17 0, offsets := fun _ => 0,
    credentials_syscallConn_itab := 77 }

/-- The same process with captured wrapper type identity 99 instead. -/
def sampleInfoN : ebpf_proc_info :=
  { version := GO_VERSION 1 17 0, offsets := fun _ => 0,
    credentials_syscallConn_itab := 99 }

/-- The sample kernel environment with an IPv6 socket: the family read
yields PF_INET6. -/
def sampleEnv6 : KernelEnv :=
  { sampleEnv with sock_read := fun sk off n =>
      if off = sampleOffs.STRUCT_SOCK_FAMILY_OFFSET then PF_INET6
      else sk + off + n }

/-- A concrete header field with name length 3 and value length 4. -/
def sampleField : go_http2_header_field :=
  { name := ⟨0, 3⟩, value := ⟨0, 4⟩, sensitive := false }

/-- A concrete field memory holding sampleField at every index. -/
def sampleFieldMem : FieldMem := fun _ _ => sampleField

/-- A concrete ingress multi-field call: two fields on descriptor 7. -/
def sampleHeaders : http2_headers_data :=
  { read := true, fd := 7, fields := ⟨0, 2, 2⟩, stream := 1,
    message_type := MSG_REQUEST, has_ctx := true }

/-- The sample multi-field call in the write direction, whose resolved
sequence number is the raw write sequence. -/
def sampleHeadersW : http2_headers_data := { sampleHeaders with read := false }

/-- C3: get_the_first_parameter returns the first declared argument under
both calling-convention eras: at or above the Go 1.17.0 boundary it returns
the rax register, below it the machine word one word past the stack pointer;
it coincides with the spec-side first_argument model, and for an equivalent
call site, where the register and the stack slot hold the same logical first
argument, both eras return that same value. -/
theorem get_the_first_parameter_eras (ctx : pt_regs) (mem : Mem)
    (info info' : ebpf_proc_info)
    (heq : ctx.rax = mem (ctx.rsp + 8))
    (h17 : GO_VERSION 1 17 0 ≤ info.version)
    (h16 : info'.version < GO_VERSION 1 17 0) :
    get_the_first_parameter ctx mem info = ctx.rax ∧
    get_the_first_parameter ctx mem info' = mem (ctx.rsp + 8) ∧
    get_the_first_parameter ctx mem info =
      get_the_first_parameter ctx mem info' ∧
    (∀ i : ebpf_proc_info,
      get_the_first_parameter ctx mem i = first_argument ctx mem i) := by
  unfold get_the_first_parameter first_argument
  rw [if_pos h17, if_neg (not_le.mpr h16)]
  refine ⟨rfl, rfl, heq, fun i => ?_⟩
  split <;> simp

/-- C3 witness: a call site whose register and stack slot both hold 5 yields
5 under a Go 1.17.0 process and under a pre-1.17 process alike. -/
theorem get_the_first_parameter_eras_witness :
    get_the_first_parameter
      { rax := 5, rbx := 0, rcx := 0, rdx := 0, rdi := 0, rsi := 0,
        rsp := 100, r8 := 0 }
      (fun a => if a = 108 then 5 else 0)
      { version := GO_VERSION 1 17 0, offsets := fun _ => 0,
        credentials_syscallConn_itab := 0 } = 5 ∧
    get_the_first_parameter
      { rax := 5, rbx := 0, rcx := 0, rdx := 0, rdi := 0, rsi := 0,
        rsp := 100, r8 := 0 }
      (fun a => if a = 108 then 5 else 0)
      { version := 0, offsets := fun _ => 0,
        credentials_syscallConn_itab := 0 } = 5 := by
  have h := get_the_first_parameter_eras
    { rax := 5, rbx := 0, rcx := 0, rdx := 0, rdi := 0, rsi := 0,
      rsp := 100, r8 := 0 }
    (fun a => if a = 108 then 5 else 0)
    { version := GO_VERSION 1 17 0, offsets := fun _ => 0,
      credentials_syscallConn_itab := 0 }
    { version := 0, offsets := fun _ => 0,
      credentials_syscallConn_itab := 0 }
    (by decide) (le_refl _) (by decide)
  exact ⟨h.1, h.2.1.trans (by decide)⟩

/-- C4: after a begin sequence is stored in the TCP sequence dedup map under
the key built from the current tgid, the descriptor and an end sequence,
querying that end sequence returns the stored begin value, and querying a key
that was never stored returns 0. -/
theorem get_previous_read_tcp_seq_spec (env : KernelEnv) (st : MapState)
    (fd seq_end seq_begin : Nat)
    (hmiss : st.http2_tcp_seq_map ⟨env.pid_tgid >>> 32, fd, seq_end⟩ = none) :
    get_previous_read_tcp_seq env
      { st with http2_tcp_seq_map :=
          bpf_map_update_elem st.http2_tcp_seq_map ⟨env.pid_tgid >>> 32, fd, seq_end⟩ seq_begin }
      fd seq_end = seq_begin ∧
    get_previous_read_tcp_seq env st fd seq_end = 0 := by
  constructor
  · unfold get_previous_read_tcp_seq bpf_map_update_elem
    simp
  · unfold get_previous_read_tcp_seq
    simp [hmiss]

/-- C4 witness: with tgid 100, descriptor 7 and end sequence 150, storing
begin 100 and querying end 150 returns 100, and querying the empty map
returns 0. -/
theorem get_previous_read_tcp_seq_spec_witness :
    get_previous_read_tcp_seq sampleEnv
      { readyState with http2_tcp_seq_map :=
          bpf_map_update_elem readyState.http2_tcp_seq_map ⟨sampleEnv.pid_tgid >>> 32, 7, 150⟩ 100 }
      7 150 = 100 ∧
    get_previous_read_tcp_seq sampleEnv readyState 7 150 = 0 :=
  get_previous_read_tcp_seq_spec sampleEnv readyState 7 150 100 rfl

/-- C10: the stream id computed by the client single-header write and the
client header-block write entry points is the 32-bit value at the client
connection's stream-offset field minus 2 in unsigned 32-bit arithmetic: both
entry points agree, and the result wraps for raw values 0 and 1. -/
theorem clientConn_stream_minus_two (ctx : pt_regs) (mem : Mem)
    (mem32 : Mem32) (info : ebpf_proc_info) :
    uprobe_go_http2ClientConn_writeHeader_stream ctx mem mem32 info =
      uprobe_go_http2ClientConn_writeHeaders_stream ctx mem mem32 info ∧
    uprobe_go_http2ClientConn_writeHeader_stream ctx mem mem32 info =
      (if mem32 (get_the_first_parameter ctx mem info +
            info.offsets OffsetIdx.OFFSET_IDX_STREAM_HTTP2_CLIENT_CONN)
            % 2 ^ 32 < 2 then
        mem32 (get_the_first_parameter ctx mem info +
            info.offsets OffsetIdx.OFFSET_IDX_STREAM_HTTP2_CLIENT_CONN)
          % 2 ^ 32 + (2 ^ 32 - 2)
      else
        mem32 (get_the_first_parameter ctx mem info +
            info.offsets OffsetIdx.OFFSET_IDX_STREAM_HTTP2_CLIENT_CONN)
          % 2 ^ 32 - 2) := by
  refine ⟨rfl, ?_⟩
  have hlt : mem32 (get_the_first_parameter ctx mem info +
      info.offsets OffsetIdx.OFFSET_IDX_STREAM_HTTP2_CLIENT_CONN) % 2 ^ 32
      < 2 ^ 32 := Nat.mod_lt _ (by norm_num)
  simp only [uprobe_go_http2ClientConn_writeHeader_stream]
  split <;> omega

/-- C8 counterexample: the size computation of the emitted record is the raw
length plus 8 masked with 1023, which wraps: a raw length of 1016 yields
perf size 1 while the smaller raw length 8 yields 17, so the size passed to
the event channel is not a monotone saturating function of the payload
length. -/
theorem report_size_wraps :
    ((report_http2_header sampleParams true (stackWithLen 1016)).2.map
        (fun r => r.size) = [1]) ∧
    ((report_http2_header sampleParams true (stackWithLen 8)).2.map
        (fun r => r.size) = [17]) ∧
    http2_send_size 1016 < http2_send_size 8 := by
  refine ⟨?_, ?_, by decide⟩ <;>
    · simp [report_http2_header, http2_send_size, stackWithLen, sampleParams,
        zeroStack, zeroSB, zeroTuple]
      decide

/-- C8 amended: the size passed to the event-channel write is 1 plus the raw
length (fixed header size plus payload length) plus 8, reduced modulo 1024:
an addition of 8 followed by a 1023 mask, which wraps modulo 1024 rather than
rounding up and saturating at a maximum. -/
theorem report_size_mod_1024 (P : ModelParams) (stack : __http2_stack) :
    (report_http2_header P true stack).2.map (fun r => r.size) =
      [1 + ((P.SOCKET_DATA_OFFSET + stack.send_buffer.syscall_len + 8)
        % 1024)] := by
  have hmask : ∀ x : Nat, x &&& 1023 = x % 1024 := fun x => by
    have h := Nat.and_pow_two_sub_one_eq_mod x 10
    norm_num at h
    exact h
  simp [report_http2_header, http2_send_size, hmask]

/-- C2 counterexample: the code masks with 0x03FF, and 2000 AND 0x03FF is
976, not 464 as the claim computes: a header whose name length is 2000 is
stored with header length 976. -/
theorem fill_buffer_mask_not_464 :
    ((http2_fill_buffer_and_send sampleParams (fun _ n => List.replicate n 1)
      sampleData (stackWithSeq 42)).1.http2_buffer.header_len = 976) ∧
    ¬ ((http2_fill_buffer_and_send sampleParams (fun _ n => List.replicate n 1)
      sampleData (stackWithSeq 42)).1.http2_buffer.header_len = 464) := by
  constructor <;> decide

/-- C2 amended: the stored name and value lengths of every header field are
the raw lengths bitwise-ANDed with the mask 0x03FF, not a saturating clamp:
a name of length 2000 is stored with length exactly 2000 AND 0x03FF = 976,
which is neither 464 nor the clamp min 2000 1023 = 1023. -/
theorem fill_buffer_masks (P : ModelParams) (tmem : ByteMem)
    (data : http2_header_data) (stack : __http2_stack)
    (h : stack.send_buffer.tcp_seq ≠ 0) :
    ((http2_fill_buffer_and_send P tmem data stack).1.http2_buffer.header_len
      = data.name.len &&& 0x03FF) ∧
    ((http2_fill_buffer_and_send P tmem data stack).1.http2_buffer.value_len
      = data.value.len &&& 0x03FF) ∧
    (data.name.len = 2000 →
      (http2_fill_buffer_and_send P tmem data
        stack).1.http2_buffer.header_len = 976 ∧
      (http2_fill_buffer_and_send P tmem data
        stack).1.http2_buffer.header_len ≠ min data.name.len 1023) := by
  have hmask :
      (http2_fill_buffer_and_send P tmem data stack).1.http2_buffer.header_len
        = data.name.len &&& 0x03FF ∧
      (http2_fill_buffer_and_send P tmem data stack).1.http2_buffer.value_len
        = data.value.len &&& 0x03FF := by
    constructor <;>
      simp [http2_fill_buffer_and_send, report_http2_header, h,
        apply_ite Prod.fst, apply_ite __http2_stack.http2_buffer,
        apply_ite __http2_buffer.header_len,
        apply_ite __http2_buffer.value_len, ite_self]
  refine ⟨hmask.1, hmask.2, fun hn => ⟨?_, ?_⟩⟩ <;>
    · rw [hmask.1, hn]
      decide

/-- C2 amended witness: a header whose name length is 2000 and value length 5
is stored with header length 976 and value length 5. -/
theorem fill_buffer_masks_witness :
    ((http2_fill_buffer_and_send sampleParams (fun _ n => List.replicate n 1)
      sampleData (stackWithSeq 42)).1.http2_buffer.value_len = 5) ∧
    ((http2_fill_buffer_and_send sampleParams (fun _ n => List.replicate n 1)
      sampleData (stackWithSeq 42)).1.http2_buffer.header_len = 976) := by
  have h := fill_buffer_masks sampleParams (fun _ n => List.replicate n 1)
    sampleData (stackWithSeq 42) (by decide)
  exact ⟨h.2.1.trans (by decide), (h.2.2 (by decide)).1⟩

/-- C6: for each of the three gRPC descriptor-resolution entry points, an
interface at the connection field whose type identity equals the captured
credentials syscallConn identity triggers exactly one extra
interface-unwrapping indirection (the interface at the field is decoded, the
interface at its data pointer is decoded in turn, and the inner data pointer
is delegated) and sets the invocation TLS flag true; any other type identity
delegates the field address itself with zero extra indirections and the flag
stays false. -/
theorem grpc_syscallConn_unwrap (resolve : FdResolver) (ctx : pt_regs)
    (mem : Mem) (im : IfaceMem) (info : ebpf_proc_info) :
    (∀ p, p = get_the_first_parameter ctx mem info +
        info.offsets OffsetIdx.OFFSET_IDX_CONN_GRPC_HTTP2_CLIENT →
      ((im p).type' = info.credentials_syscallConn_itab →
        get_fd_from_grpc_http2Client_ctx resolve ctx mem im info =
          (resolve (im ((im p).ptr)).ptr info, true)) ∧
      ((im p).type' ≠ info.credentials_syscallConn_itab →
        get_fd_from_grpc_http2Client_ctx resolve ctx mem im info =
          (resolve p info, false))) ∧
    (∀ p, p = get_the_first_parameter ctx mem info +
        info.offsets OffsetIdx.OFFSET_IDX_CONN_GRPC_HTTP2_SERVER →
      ((im p).type' = info.credentials_syscallConn_itab →
        get_fd_from_grpc_http2Server_ctx resolve ctx mem im info =
          (resolve (im ((im p).ptr)).ptr info, true)) ∧
      ((im p).type' ≠ info.credentials_syscallConn_itab →
        get_fd_from_grpc_http2Server_ctx resolve ctx mem im info =
          (resolve p info, false))) ∧
    (∀ p, p = mem (mem (get_the_first_parameter ctx mem info +
          info.offsets
            OffsetIdx.OFFSET_IDX_FRAMER_GRPC_TRANSPORT_LOOPY_WRITER) +
          info.offsets OffsetIdx.OFFSET_IDX_WRITER_GRPC_TRANSPORT_FRAMER) +
        info.offsets OffsetIdx.OFFSET_IDX_CONN_GRPC_TRANSPORT_BUFWRITER →
      ((im p).type' = info.credentials_syscallConn_itab →
        get_fd_from_grpc_loopyWriter resolve ctx mem im info =
          (resolve (im ((im p).ptr)).ptr info, true)) ∧
      ((im p).type' ≠ info.credentials_syscallConn_itab →
        get_fd_from_grpc_loopyWriter resolve ctx mem im info =
          (resolve p info, false))) := by
  refine ⟨?_, ?_, ?_⟩ <;> rintro p rfl <;> constructor <;> intro h <;>
    simp [get_fd_from_grpc_http2Client_ctx, get_fd_from_grpc_http2Server_ctx,
      get_fd_from_grpc_loopyWriter, is_grpc_syscallConn_interface, h]

/-- C6 witness: with the wrapper interface of type identity 77 at address 10
wrapping an inner interface whose data pointer is 30, a captured identity 77
resolves through the unwrapped pointer 30 with the TLS flag true, while a
captured identity 99 resolves the field address 10 itself with the flag
false. -/
theorem grpc_syscallConn_unwrap_witness :
    get_fd_from_grpc_http2Client_ctx (fun q _ => q) sampleCtx (fun _ => 0)
      sampleIface sampleInfoT = (30, true) ∧
    get_fd_from_grpc_http2Client_ctx (fun q _ => q) sampleCtx (fun _ => 0)
      sampleIface sampleInfoN = (10, false) := by
  have hT := (grpc_syscallConn_unwrap (fun q _ => q) sampleCtx (fun _ => 0)
    sampleIface sampleInfoT).1 10 (by decide)
  have hN := (grpc_syscallConn_unwrap (fun q _ => q) sampleCtx (fun _ => 0)
    sampleIface sampleInfoN).1 10 (by decide)
  exact ⟨(hT.1 (by decide)).trans (by decide), (hN.2 (by decide)).trans rfl⟩

/-- The socket-id step never changes the enriched sequence number. -/
theorem socket_id_stage_tcp_seq (env : KernelEnv) (st : MapState) (fd : Nat)
    (sb : __socket_data) :
    (socket_id_stage env st fd sb).1.tcp_seq = sb.tcp_seq := by
  simp only [socket_id_stage, fill_tgid_pid]
  repeat' split
  all_goals rfl

/-- The socket-id step never changes the five-tuple. -/
theorem socket_id_stage_tuple (env : KernelEnv) (st : MapState) (fd : Nat)
    (sb : __socket_data) :
    (socket_id_stage env st fd sb).1.tuple = sb.tuple := by
  simp only [socket_id_stage, fill_tgid_pid]
  repeat' split
  all_goals rfl

/-- The tuple step never changes the enriched sequence number. -/
theorem tuple_stage_tcp_seq (env : KernelEnv) (fd : Nat)
    (sb : __socket_data) :
    (tuple_stage env fd sb).tcp_seq = sb.tcp_seq := by
  simp only [tuple_stage]
  repeat' split
  all_goals rfl

/-- On the ready path, the enricher is the socket-id step after the tuple
step, applied to a header buffer carrying the resolved sequence number. -/
theorem fill_common_happy (env : KernelEnv) (st : MapState) (tls : Bool)
    (data : http2_header_data) (sb : __socket_data)
    (off : member_fields_offset)
    (hseq : resolved_tcp_seq env st data ≠ 0)
    (hmo : st.members_offset = some off) (hr : off.ready ≠ 0) :
    ∃ sb', sb'.tcp_seq = resolved_tcp_seq env st data ∧
      http2_fill_common_socket env st tls data sb =
        socket_id_stage env st data.fd (tuple_stage env data.fd sb') := by
  refine ⟨{ sb with
      source := DATA_SOURCE_GO_HTTP2_UPROBE, coroutine_id := env.goroutine,
      timestamp := env.ktime, comm := env.comm,
      tcp_seq := resolved_tcp_seq env st data,
      direction := if data.read then traffic_direction.T_INGRESS
        else traffic_direction.T_EGRESS,
      data_type := if tls then traffic_protocol.PROTO_TLS_HTTP2
        else traffic_protocol.PROTO_HTTP2 }, rfl, ?_⟩
  unfold http2_fill_common_socket
  simp [hseq, hmo, hr]

/-- A zero resolved sequence number abandons the enrichment: the sequence
field keeps its pre-invocation value and the map state is unchanged. -/
theorem fill_common_zero (env : KernelEnv) (st : MapState) (tls : Bool)
    (data : http2_header_data) (sb : __socket_data)
    (hseq : resolved_tcp_seq env st data = 0) :
    (http2_fill_common_socket env st tls data sb).1.tcp_seq = sb.tcp_seq ∧
    (http2_fill_common_socket env st tls data sb).2 = st := by
  unfold http2_fill_common_socket
  simp [hseq]

/-- A nonzero resolved sequence number is written into the record header on
every path of the enricher. -/
theorem fill_common_tcp_seq (env : KernelEnv) (st : MapState) (tls : Bool)
    (data : http2_header_data) (sb : __socket_data)
    (hseq : resolved_tcp_seq env st data ≠ 0) :
    (http2_fill_common_socket env st tls data sb).1.tcp_seq =
      resolved_tcp_seq env st data := by
  cases hmo : st.members_offset with
  | none =>
    unfold http2_fill_common_socket
    simp [hseq, hmo]
  | some off =>
    by_cases hr : off.ready = 0
    · unfold http2_fill_common_socket
      simp [hseq, hmo, hr]
    · obtain ⟨sb', hsb', heq⟩ :=
        fill_common_happy env st tls data sb off hseq hmo hr
      rw [heq, socket_id_stage_tcp_seq, tuple_stage_tcp_seq, hsb']

/-- A first occurrence of the connection key allocates counter plus 1 as the
socket id, stores it, bumps the counter and the statistics, and leaves the
other maps unchanged. -/
theorem socket_id_stage_alloc (env : KernelEnv) (st : MapState) (fd : Nat)
    (sb : __socket_data) (c ts : Nat)
    (htu : st.trace_uid = some ⟨c⟩)
    (hts : st.trace_stats_map = some ⟨ts⟩)
    (hmiss : st.socket_info_map (gen_conn_key_id (env.pid_tgid >>> 32) fd)
      = none) :
    (socket_id_stage env st fd sb).1.socket_id = (c + 1) % 2 ^ 64 ∧
    (socket_id_stage env st fd sb).2.trace_uid
      = some ⟨(c + 1) % 2 ^ 64⟩ ∧
    (socket_id_stage env st fd sb).2.socket_info_map
        (gen_conn_key_id (env.pid_tgid >>> 32) fd)
      = some ⟨(c + 1) % 2 ^ 64⟩ ∧
    (socket_id_stage env st fd sb).2.members_offset = st.members_offset ∧
    (socket_id_stage env st fd sb).2.http2_tcp_seq_map
      = st.http2_tcp_seq_map ∧
    (socket_id_stage env st fd sb).2.trace_stats_map = some ⟨ts + 1⟩ := by
  unfold socket_id_stage
  simp [htu, hts, hmiss, is_socket_info_valid, fill_tgid_pid,
    bpf_map_update_elem]

/-- A stored socket-info entry is returned as the socket id and the map
state is left untouched. -/
theorem socket_id_stage_hit (env : KernelEnv) (st : MapState) (fd : Nat)
    (sb : __socket_data) (u : trace_uid_t) (uid : Nat)
    (htu : st.trace_uid = some u)
    (hhit : st.socket_info_map (gen_conn_key_id (env.pid_tgid >>> 32) fd)
      = some ⟨uid⟩) :
    (socket_id_stage env st fd sb).1.socket_id = uid ∧
    (socket_id_stage env st fd sb).2 = st := by
  unfold socket_id_stage
  simp [htu, hhit, is_socket_info_valid, fill_tgid_pid]

/-- C5: socket identity allocation is idempotent per (pid, fd) pair.  The
first enrichment for the pair assigns the counter value plus 1 (as a 64-bit
value) as the socket id, stores it in the socket-info map and increments the
counter; a second enrichment for the same pair before any external reset
returns the identical stored id and changes neither the counter nor any
map. -/
theorem socket_id_idempotent (env : KernelEnv) (st : MapState)
    (tls tls' : Bool) (data data' : http2_header_data)
    (sb sb' : __socket_data) (c ts : Nat) (off : member_fields_offset)
    (hfd : data'.fd = data.fd)
    (hseq : resolved_tcp_seq env st data ≠ 0)
    (hmo : st.members_offset = some off) (hr : off.ready ≠ 0)
    (htu : st.trace_uid = some ⟨c⟩)
    (hts : st.trace_stats_map = some ⟨ts⟩)
    (hmiss : st.socket_info_map
      (gen_conn_key_id (env.pid_tgid >>> 32) data.fd) = none)
    (hseq2 : resolved_tcp_seq env
      (http2_fill_common_socket env st tls data sb).2 data' ≠ 0) :
    ((http2_fill_common_socket env st tls data sb).1.socket_id
      = (c + 1) % 2 ^ 64) ∧
    ((http2_fill_common_socket env st tls data sb).2.trace_uid
      = some ⟨(c + 1) % 2 ^ 64⟩) ∧
    ((http2_fill_common_socket env
        (http2_fill_common_socket env st tls data sb).2 tls' data'
        sb').1.socket_id = (c + 1) % 2 ^ 64) ∧
    ((http2_fill_common_socket env
        (http2_fill_common_socket env st tls data sb).2 tls' data' sb').2
      = (http2_fill_common_socket env st tls data sb).2) := by
  obtain ⟨sb1, hsb1, heq1⟩ :=
    fill_common_happy env st tls data sb off hseq hmo hr
  have halloc := socket_id_stage_alloc env st data.fd
    (tuple_stage env data.fd sb1) c ts htu hts hmiss
  rw [heq1]
  have hmo2 : (socket_id_stage env st data.fd
      (tuple_stage env data.fd sb1)).2.members_offset = some off :=
    halloc.2.2.2.1.trans hmo
  have hseq2' : resolved_tcp_seq env
      (socket_id_stage env st data.fd (tuple_stage env data.fd sb1)).2
        data' ≠ 0 := by
    rw [heq1] at hseq2
    exact hseq2
  obtain ⟨sb2, hsb2, heq2⟩ := fill_common_happy env
    (socket_id_stage env st data.fd (tuple_stage env data.fd sb1)).2 tls'
    data' sb' off hseq2' hmo2 hr
  rw [heq2]
  have hhit := socket_id_stage_hit env
    (socket_id_stage env st data.fd (tuple_stage env data.fd sb1)).2
    data'.fd (tuple_stage env data'.fd sb2) ⟨(c + 1) % 2 ^ 64⟩
    ((c + 1) % 2 ^ 64) halloc.2.1 (by rw [hfd]; exact halloc.2.2.1)
  exact ⟨halloc.1, halloc.2.1, hhit.1, hhit.2⟩

/-- C5 witness: tgid 100, descriptor 7, counter 0: the first enrichment
yields socket id 1 and the second yields the same id 1. -/
theorem socket_id_idempotent_witness :
    ((http2_fill_common_socket sampleEnv readyState false sampleData
      zeroSB).1.socket_id = (0 + 1) % 2 ^ 64) ∧
    ((http2_fill_common_socket sampleEnv
        (http2_fill_common_socket sampleEnv readyState false sampleData
          zeroSB).2 false sampleData zeroSB).1.socket_id
      = (0 + 1) % 2 ^ 64) := by
  have h := socket_id_idempotent sampleEnv readyState false false sampleData
    sampleData zeroSB zeroSB 0 0 ⟨1⟩ rfl (by decide) rfl (by decide) rfl rfl
    rfl (by decide)
  exact ⟨h.1, h.2.2.1⟩

/-- C9: for an enriched event whose socket has address family PF_INET6, the
emitted remote (destination) IPv6 address equals the emitted local (source)
IPv6 address, because both 16-byte reads use the IPv6 source-address
offset. -/
theorem ipv6_daddr_eq_saddr (env : KernelEnv) (st : MapState) (tls : Bool)
    (data : http2_header_data) (sb : __socket_data)
    (off : member_fields_offset)
    (hseq : resolved_tcp_seq env st data ≠ 0)
    (hmo : st.members_offset = some off) (hr : off.ready ≠ 0)
    (hfam : env.sock_read (env.sock_of_fd data.fd)
      env.offs.STRUCT_SOCK_FAMILY_OFFSET 2 = PF_INET6) :
    ((http2_fill_common_socket env st tls data sb).1.tuple.daddr
      = (http2_fill_common_socket env st tls data sb).1.tuple.rcv_saddr) ∧
    ((http2_fill_common_socket env st tls data sb).1.tuple.rcv_saddr
      = env.sock_read (env.sock_of_fd data.fd)
          env.offs.STRUCT_SOCK_IP6SADDR_OFFSET 16) ∧
    ((http2_fill_common_socket env st tls data sb).1.tuple.addr_len
      = 16) := by
  obtain ⟨sb', hsb', heq⟩ :=
    fill_common_happy env st tls data sb off hseq hmo hr
  rw [heq, socket_id_stage_tuple]
  unfold tuple_stage
  simp [hfam, PF_INET, PF_INET6]

/-- C9 witness: a socket whose family field reads PF_INET6 yields identical
source and destination addresses in the emitted tuple. -/
theorem ipv6_daddr_eq_saddr_witness :
    ((http2_fill_common_socket sampleEnv6 readyState false sampleData
      zeroSB).1.tuple.daddr
      = (http2_fill_common_socket sampleEnv6 readyState false sampleData
        zeroSB).1.tuple.rcv_saddr) ∧
    ((http2_fill_common_socket sampleEnv6 readyState false sampleData
      zeroSB).1.tuple.addr_len = 16) := by
  have h := ipv6_daddr_eq_saddr sampleEnv6 readyState false sampleData
    zeroSB ⟨1⟩ (by decide) rfl (by decide) (by decide)
  exact ⟨h.1, h.2.2⟩

/-- A zero sequence number in the scratch header suppresses the fill and
send entirely and leaves the stack untouched. -/
theorem fill_send_zero (P : ModelParams) (tmem : ByteMem)
    (data : http2_header_data) (stack : __http2_stack)
    (h : stack.send_buffer.tcp_seq = 0) :
    http2_fill_buffer_and_send P tmem data stack = (stack, []) := by
  unfold http2_fill_buffer_and_send
  simp [h]

/-- With a nonzero sequence number, a non-null ctx and a field whose masked
lengths fit the buffer, the fill and send emits exactly one record carrying
the event's message kind and the masked lengths, and preserves the sequence
number. -/
theorem fill_send_emit (P : ModelParams) (tmem : ByteMem)
    (data : http2_header_data) (stack : __http2_stack)
    (h : stack.send_buffer.tcp_seq ≠ 0) (hctx : data.has_ctx = true)
    (hfit : 16 + (data.name.len &&& 0x03FF) + (data.value.len &&& 0x03FF)
      ≤ P.HTTP2_BUFFER_INFO_SIZE) :
    ∃ stack', http2_fill_buffer_and_send P tmem data stack =
        (stack', [{ stack := stack', size := 1 + http2_send_size stack'.len }])
      ∧ stack'.send_buffer.tcp_seq = stack.send_buffer.tcp_seq
      ∧ stack'.send_buffer.msg_type = data.message_type
      ∧ stack'.http2_buffer.header_len = data.name.len &&& 0x03FF
      ∧ stack'.http2_buffer.value_len = data.value.len &&& 0x03FF := by
  have hcnt : ¬ (P.HTTP2_BUFFER_INFO_SIZE <
      16 + (data.name.len &&& 0x03FF) + (data.value.len &&& 0x03FF)) := by
    omega
  have h1 : data.name.len &&& 0x03FF < P.HTTP2_BUFFER_INFO_SIZE := by omega
  have h2 : data.value.len &&& 0x03FF < P.HTTP2_BUFFER_INFO_SIZE := by omega
  have h3 : (data.name.len &&& 0x03FF) + (data.value.len &&& 0x03FF)
      < P.HTTP2_BUFFER_INFO_SIZE := by omega
  unfold http2_fill_buffer_and_send report_http2_header
  simp [h, hctx, hcnt, h1, h2, h3]
  exact ⟨_, ⟨rfl, rfl⟩, rfl, rfl, rfl, rfl⟩

/-- A scratch stack whose sequence number is zero makes the whole submit
loop a no-op. -/
theorem submit_loop_zero (P : ModelParams) (tmem : ByteMem)
    (fieldMem : FieldMem) (fields : go_slice) (data : http2_header_data) :
    ∀ (fuel idx : Nat) (stack : __http2_stack),
    stack.send_buffer.tcp_seq = 0 →
    submit_loop P tmem fieldMem fields data idx fuel stack = (stack, []) := by
  intro fuel
  induction fuel with
  | zero => intro idx stack _; rfl
  | succ fuel ih =>
    intro idx stack h
    unfold submit_loop
    by_cases hi : fields.len ≤ idx
    · simp [hi]
    · simp [hi, fill_send_zero P tmem _ stack h, ih (idx + 1) stack h]

/-- With a nonzero sequence number, a non-null ctx and all visited fields
fitting the buffer, the submit loop emits one record per visited field, all
carrying the event's message kind, and preserves the sequence number. -/
theorem submit_loop_emits (P : ModelParams) (tmem : ByteMem)
    (fieldMem : FieldMem) (fields : go_slice) (data : http2_header_data)
    (hctx : data.has_ctx = true) :
    ∀ (fuel idx : Nat) (stack : __http2_stack),
    stack.send_buffer.tcp_seq ≠ 0 →
    (∀ i, idx ≤ i → i < fields.len → i < idx + fuel →
      16 + ((fieldMem fields.ptr i).name.len &&& 0x03FF) +
        ((fieldMem fields.ptr i).value.len &&& 0x03FF)
          ≤ P.HTTP2_BUFFER_INFO_SIZE) →
    ((submit_loop P tmem fieldMem fields data idx fuel
        stack).1.send_buffer.tcp_seq = stack.send_buffer.tcp_seq) ∧
    ((submit_loop P tmem fieldMem fields data idx fuel stack).2.map
        (fun r => r.stack.send_buffer.msg_type)
      = List.replicate (min (fields.len - idx) fuel) data.message_type) := by
  intro fuel
  induction fuel with
  | zero =>
    intro idx stack _ _
    exact ⟨rfl, by simp [submit_loop]⟩
  | succ fuel ih =>
    intro idx stack h hfits
    by_cases hi : fields.len ≤ idx
    · unfold submit_loop
      have hz : fields.len - idx = 0 := Nat.sub_eq_zero_of_le hi
      simp [hi, hz]
    · push_neg at hi
      set f := fieldMem fields.ptr idx with hf
      obtain ⟨stack', heq, htcp, hmsg, _, _⟩ := fill_send_emit P tmem
        { data with name := f.name, value := f.value } stack h hctx
        (hfits idx le_rfl hi (by omega))
      have hrest := ih (idx + 1) stack' (htcp ▸ h)
        (fun i hge hlt hfu => hfits i (by omega) hlt (by omega))
      unfold submit_loop
      rw [if_neg (not_le.mpr hi)]
      simp only [heq]
      refine ⟨hrest.1.trans htcp, ?_⟩
      have hmin : min (fields.len - idx) (fuel + 1)
          = min (fields.len - (idx + 1)) fuel + 1 := by omega
      simp [hrest.2, hmsg, hmin, List.replicate_succ]

/-- C7: an invocation whose common-socket enrichment fails to produce a
nonzero TCP sequence number emits nothing: with a scratch buffer whose
sequence field starts at zero, a zero resolved sequence makes the whole
multi-field submission emit no record, and in general a zero sequence in the
scratch header suppresses every single fill and send. -/
theorem zero_seq_suppresses_emission (P : ModelParams) (tmem : ByteMem)
    (fieldMem : FieldMem) (env : KernelEnv) (st : MapState) (tls : Bool)
    (headers : http2_headers_data) (stack : __http2_stack)
    (hseq : resolved_tcp_seq env st (headers_to_data headers) = 0)
    (h0 : stack.send_buffer.tcp_seq = 0) :
    ((submit_http2_headers P tmem fieldMem env st tls headers stack).2.2
      = []) ∧
    (∀ (data : http2_header_data) (stack' : __http2_stack),
      stack'.send_buffer.tcp_seq = 0 →
      (http2_fill_buffer_and_send P tmem data stack').2 = []) := by
  constructor
  · have hz := fill_common_zero env st tls (headers_to_data headers)
      stack.send_buffer hseq
    unfold submit_http2_headers
    have h1 : (http2_fill_common_socket env st tls (headers_to_data headers)
        stack.send_buffer).1.tcp_seq = 0 := by rw [hz.1, h0]
    have hl := submit_loop_zero P tmem fieldMem headers.fields
      (headers_to_data headers) 9 0
      { stack with send_buffer :=
          (http2_fill_common_socket env st tls (headers_to_data headers)
            stack.send_buffer).1 } h1
    simp only [hl]
    rw [fill_send_zero]
    · simp
    · exact h1
  · intro data stack' h
    rw [fill_send_zero P tmem data stack' h]

/-- C7 witness: with an empty dedup map a read event resolves sequence 0 and
the submission for two fields on descriptor 7 emits no record. -/
theorem zero_seq_suppresses_emission_witness :
    (submit_http2_headers sampleParams (fun _ n => List.replicate n 1)
      sampleFieldMem sampleEnv readyState false sampleHeaders
      zeroStack).2.2 = [] := by
  have h := zero_seq_suppresses_emission sampleParams
    (fun _ n => List.replicate n 1) sampleFieldMem
    sampleEnv readyState false sampleHeaders
    zeroStack (by decide) (by decide)
  exact h.1

/-- C1: a multi-field call whose field collection has true length N, with a
nonzero enriched sequence number, a non-null ctx and every visited field
fitting the buffer, emits exactly min N 9 field-records all carrying the
call's base message kind (fields beyond the ceiling of 9 are silently
dropped), followed by exactly one terminal record whose message kind is the
base kind plus 2 and whose stored name and value lengths are both zero. -/
theorem submit_emits_fields_then_terminal (P : ModelParams) (tmem : ByteMem)
    (fieldMem : FieldMem) (env : KernelEnv) (st : MapState) (tls : Bool)
    (headers : http2_headers_data) (stack : __http2_stack)
    (hseq : resolved_tcp_seq env st (headers_to_data headers) ≠ 0)
    (hctx : headers.has_ctx = true)
    (hfit : ∀ i < min headers.fields.len 9,
      16 + ((fieldMem headers.fields.ptr i).name.len &&& 0x03FF) +
        ((fieldMem headers.fields.ptr i).value.len &&& 0x03FF)
          ≤ P.HTTP2_BUFFER_INFO_SIZE)
    (hterm : 16 ≤ P.HTTP2_BUFFER_INFO_SIZE) :
    ∃ fieldRecs last,
      (submit_http2_headers P tmem fieldMem env st tls headers stack).2.2
        = fieldRecs ++ [last] ∧
      fieldRecs.length = min headers.fields.len 9 ∧
      fieldRecs.map (fun r => r.stack.send_buffer.msg_type)
        = List.replicate (min headers.fields.len 9) headers.message_type ∧
      last.stack.send_buffer.msg_type = headers.message_type + 2 ∧
      last.stack.http2_buffer.header_len = 0 ∧
      last.stack.http2_buffer.value_len = 0 := by
  have hdctx : (headers_to_data headers).has_ctx = true := by
    simpa [headers_to_data] using hctx
  have h1 : (http2_fill_common_socket env st tls (headers_to_data headers)
      stack.send_buffer).1.tcp_seq
        = resolved_tcp_seq env st (headers_to_data headers) :=
    fill_common_tcp_seq env st tls (headers_to_data headers)
      stack.send_buffer hseq
  set stack1 : __http2_stack := { stack with send_buffer := (http2_fill_common_socket env st tls (headers_to_data headers) stack.send_buffer).1 } with hs1
  have h1' : stack1.send_buffer.tcp_seq ≠ 0 := by
    rw [hs1]
    simpa [h1] using hseq
  have hloop := submit_loop_emits P tmem fieldMem headers.fields
    (headers_to_data headers) hdctx 9 0 stack1 h1'
    (fun i _ hlen h9 => hfit i (by omega))
  set data2 : http2_header_data := { headers_to_data headers with name := { (headers_to_data headers).name with len := 0 }, value := { (headers_to_data headers).value with len := 0 }, message_type := (headers_to_data headers).message_type + 2 } with hd2
  have hL1 : (submit_loop P tmem fieldMem headers.fields
      (headers_to_data headers) 0 9 stack1).1.send_buffer.tcp_seq ≠ 0 := by
    rw [hloop.1]
    exact h1'
  have hctx2 : data2.has_ctx = true := by
    rw [hd2]
    simpa [headers_to_data] using hctx
  have hfit2 : 16 + (data2.name.len &&& 0x03FF) +
      (data2.value.len &&& 0x03FF) ≤ P.HTTP2_BUFFER_INFO_SIZE := by
    rw [hd2]
    simpa using hterm
  obtain ⟨stackT, heqT, _, hmsgT, hhlT, hvlT⟩ := fill_send_emit P tmem data2
    (submit_loop P tmem fieldMem headers.fields (headers_to_data headers)
      0 9 stack1).1 hL1 hctx2 hfit2
  have hsub : (submit_http2_headers P tmem fieldMem env st tls headers
      stack).2.2
      = (submit_loop P tmem fieldMem headers.fields
          (headers_to_data headers) 0 9 stack1).2
        ++ (http2_fill_buffer_and_send P tmem data2
          (submit_loop P tmem fieldMem headers.fields
            (headers_to_data headers) 0 9 stack1).1).2 := by
    rw [hs1, hd2]
    rfl
  refine ⟨(submit_loop P tmem fieldMem headers.fields
      (headers_to_data headers) 0 9 stack1).2,
    { stack := stackT, size := 1 + http2_send_size stackT.len },
    ?_, ?_, ?_, ?_, ?_, ?_⟩
  · rw [hsub, heqT]
  · have hlen := congrArg List.length hloop.2
    simpa using hlen
  · have hmap := hloop.2
    simpa [headers_to_data] using hmap
  · rw [hmsgT, hd2]
    simp [headers_to_data]
  · rw [hhlT, hd2]
    simp
  · rw [hvlT, hd2]
    simp

/-- C1 witness: a write-direction call with 2 fields on descriptor 7 emits
two records of kind MSG_REQUEST followed by one record of kind
MSG_REQUEST + 2. -/
theorem submit_emits_fields_then_terminal_witness :
    (submit_http2_headers sampleParams (fun _ n => List.replicate n 1)
      sampleFieldMem sampleEnv readyState false sampleHeadersW
      zeroStack).2.2.map (fun r => r.stack.send_buffer.msg_type)
      = [MSG_REQUEST, MSG_REQUEST, MSG_REQUEST + 2] := by
  obtain ⟨fieldRecs, last, heq, hlen, hmap, hmsg, _, _⟩ :=
    submit_emits_fields_then_terminal sampleParams
      (fun _ n => List.replicate n 1) sampleFieldMem sampleEnv readyState
      false sampleHeadersW zeroStack (by decide) rfl (by decide) (by decide)
  rw [heq]
  simp only [List.map_append, hmap, hmsg, List.map_cons, List.map_nil]
  decide

end GoHttp2
